import Mathlib

/-!
Verification of the Technical Coherence Engine of dictionary-forge.

The definitions below are a shallow embedding of the Python source:
  - src/logic/coherence.py           (taxonomy and visibility predicate)
  - src/components/bulk_action_ui.py (batch Coherence Cascade)
  - src/components/variable_form/handlers.py (record builder commit, delete)
  - src/components/template_modal.py (template vocabulary sanitization)
Python dicts are modelled as ordered association lists (insertion order
preserved, unique keys), absent keys as `none`, and the theorems settle the
spec claims against these definitions.
-/

namespace DictionaryForge

/-- JSON-like scalar values stored in a variable's metadata sections.
Only the shapes actually used by the modelled code paths are included. -/
inductive Val where
  | str : String → Val
  | int : Int → Val
  | bool : Bool → Val
  | strList : List String → Val
  | strIntMap : List (String × Int) → Val
  | null : Val
deriving DecidableEq, Repr

/-- A Python dict with string keys: ordered association list. -/
abbrev AList := List (String × Val)

/-- Python `d.get(k)`: value at the first occurrence of key `k`. -/
def dlookup (m : AList) (k : String) : Option Val :=
  match m with
  | [] => none
  | (k₀, v₀) :: rest => if k₀ = k then some v₀ else dlookup rest k

/-- Python `d[k] = v`: overwrite in place when the key exists, else append. -/
def dinsert (m : AList) (k : String) (v : Val) : AList :=
  match m with
  | [] => [(k, v)]
  | (k₀, v₀) :: rest => if k₀ = k then (k₀, v) :: rest else (k₀, v₀) :: dinsert rest k v

/-- Python `d.pop(k)` (key side): remove the first occurrence of key `k`. -/
def dremove (m : AList) (k : String) : AList :=
  match m with
  | [] => []
  | (k₀, v₀) :: rest => if k₀ = k then rest else (k₀, v₀) :: dremove rest k

/-- `get_filtered_data_types` from src/logic/coherence.py: maps an analytical
type to the list of permitted storage data types, with the defensive
`object` fallback for unknown inputs. -/
def get_filtered_data_types (analytical_type : String) : List String :=
  if analytical_type = "continuous" then ["float64"]
  else if analytical_type = "discrete" then ["int64"]
  else if analytical_type = "nominal" then ["category", "string", "bool"]
  else if analytical_type = "ordinal" then ["category"]
  else if analytical_type = "binary" then ["bool", "int64"]
  else if analytical_type = "text" then ["string"]
  else if analytical_type = "time_index" then ["datetime64"]
  else if analytical_type = "spatial" then ["float64", "string"]
  else ["object"]

/-- `get_filtered_roles` from src/logic/coherence.py: ordered first-match-wins
rule chain restricting functional roles; `data_type` defaults to None. -/
def get_filtered_roles (analytical_type : String) (data_type : Option String) : List String :=
  if analytical_type = "time_index" ∨ data_type = some "datetime64" then ["time_index"]
  else if analytical_type = "text" then ["feature", "metadata"]
  else if analytical_type = "spatial" then ["feature", "metadata"]
  else if analytical_type = "binary" then ["feature", "target", "group", "metadata"]
  else if analytical_type = "continuous" then ["feature", "target", "group", "metadata"]
  else if analytical_type = "nominal" then ["feature", "target", "id", "group", "metadata"]
  else ["feature", "target", "id", "time_index", "group", "metadata"]

/-- `is_field_visible` from src/logic/coherence.py: the visibility predicate.
Each Python `if ...: return False` block becomes one else-if branch; the
`ordinal`/`elif` pair of the source is the two mutually exclusive branches on
`analytical_type = "ordinal"`. A `data_type` of `none` or `some ""` skips the
per-data-type block, mirroring Python truthiness of `if data_type:`. -/
def is_field_visible (field_name : String) (analytical_type : String)
    (data_type : Option String) : Bool :=
  if field_name = "plot_color" ∨ field_name = "formatting" then false
  else if (analytical_type = "continuous" ∨ analytical_type = "discrete") ∧
      field_name ∈ ["allowed_values", "regex_pattern", "ordinal_mapping",
        "text_normalization", "encoding_strategy"] then false
  else if analytical_type = "binary" ∧
      field_name ∈ ["min_value", "max_value", "regex_pattern", "allowed_values",
        "ordinal_mapping", "unique", "outlier_strategy", "outlier_threshold",
        "standardization_strategy", "infinite_value_handling",
        "text_normalization"] then false
  else if analytical_type = "nominal" ∧
      field_name ∈ ["outlier_strategy", "outlier_threshold", "ordinal_mapping",
        "standardization_strategy", "infinite_value_handling",
        "text_normalization"] then false
  else if analytical_type = "text" ∧
      field_name ∈ ["outlier_strategy", "outlier_threshold", "ordinal_mapping",
        "standardization_strategy", "infinite_value_handling",
        "encoding_strategy"] then false
  else if analytical_type = "time_index" ∧
      field_name ∈ ["allowed_values", "regex_pattern", "outlier_strategy",
        "outlier_threshold", "ordinal_mapping", "standardization_strategy",
        "infinite_value_handling", "text_normalization",
        "encoding_strategy"] then false
  else if analytical_type = "ordinal" ∧
      field_name ∈ ["regex_pattern", "outlier_strategy", "outlier_threshold",
        "standardization_strategy", "infinite_value_handling",
        "text_normalization"] then false
  else if analytical_type ≠ "ordinal" ∧ field_name = "ordinal_mapping" then false
  else if field_name ∈ ["standardization_strategy", "infinite_value_handling"] ∧
      analytical_type ≠ "continuous" then false
  else if field_name = "text_normalization" ∧ analytical_type ≠ "text" then false
  else if field_name = "encoding_strategy" ∧
      analytical_type ∉ ["nominal", "ordinal", "binary"] then false
  else
    match data_type with
    | none => true
    | some dt =>
      if dt = "" then true
      else if dt = "string" ∧ field_name ∈ ["outlier_strategy", "outlier_threshold",
          "ordinal_mapping", "standardization_strategy"] then false
      else if dt = "category" ∧ field_name ∈ ["min_value", "max_value", "regex_pattern",
          "outlier_strategy", "outlier_threshold", "standardization_strategy"] then false
      else if dt = "bool" ∧ field_name ∈ ["min_value", "max_value", "regex_pattern",
          "allowed_values", "unique", "outlier_strategy", "outlier_threshold",
          "ordinal_mapping", "standardization_strategy"] then false
      else true

/-- The eight analytical types of the source taxonomy (spec section 3). -/
def analyticalTypes : List String :=
  ["continuous", "discrete", "nominal", "ordinal", "binary", "text", "time_index", "spatial"]

/-- The seven storage data types of the source taxonomy (spec section 3). -/
def dataTypes : List String :=
  ["float64", "int64", "string", "bool", "category", "datetime64", "object"]

/-- Data-type arguments a caller can pass: None or one of the seven types. -/
def dataTypeOpts : List (Option String) := none :: dataTypes.map some

example : is_field_visible "ordinal_mapping" "nominal" none = false := by decide
example : is_field_visible "ordinal_mapping" "ordinal" none = true := by decide
example : is_field_visible "ordinal_mapping" "ordinal" (some "string") = false := by decide
example : get_filtered_data_types "continuous" = ["float64"] := by decide

/-- A Variable record as handled by the batch cascade: the top-level typing
attributes and the four metadata sections the cascade prunes
(src/components/bulk_action_ui.py). A section is `none` when the key is
absent from the underlying dict. -/
structure Variable where
  name : Option String
  analytical_type : Option String
  data_type : Option String
  constraints : Option AList
  cleaning : Option AList
  governance : Option AList
  database_mapping : Option AList
deriving DecidableEq, Repr

/-- The empty (freshly created) variable dict. -/
def Variable.empty : Variable :=
  { name := none, analytical_type := none, data_type := none,
    constraints := none, cleaning := none, governance := none,
    database_mapping := none }

/-- `patch["root"]`: the top-level fields the batch UI can override
(src/components/bulk_action_ui.py builds only these two). -/
structure RootPatch where
  analytical_type : Option String
  data_type : Option String
deriving DecidableEq, Repr

/-- `patch["nested"]`: per-section field overrides. -/
structure NestedPatch where
  constraints : AList
  cleaning : AList
  governance : AList
  database_mapping : AList
deriving DecidableEq, Repr

/-- A batch-editor patch: root overrides plus nested section overrides. -/
structure Patch where
  root : RootPatch
  nested : NestedPatch
deriving DecidableEq, Repr

/-- The patch with zero effective field entries. -/
def Patch.empty : Patch :=
  { root := { analytical_type := none, data_type := none },
    nested := { constraints := [], cleaning := [], governance := [],
                database_mapping := [] } }

/-- `for k, v in patch["root"].items(): var[k] = v` — overwrite the top-level
attributes named in the root patch. -/
def apply_root (p : RootPatch) (v : Variable) : Variable :=
  let v₁ := match p.analytical_type with
    | some a => { v with analytical_type := some a }
    | none => v
  match p.data_type with
  | some d => { v₁ with data_type := some d }
  | none => v₁

/-- One section of the nested-patch loop: `if fields:` create the section when
absent, then overwrite each field into it. -/
def apply_section (fields : AList) (cur : Option AList) : Option AList :=
  if fields = [] then cur
  else some (fields.foldl (fun m kv => dinsert m kv.1 kv.2) (cur.getD []))

/-- `for section, fields in patch["nested"].items(): ...` over the four
modelled sections. -/
def apply_nested (p : NestedPatch) (v : Variable) : Variable :=
  { v with
    constraints := apply_section p.constraints v.constraints,
    cleaning := apply_section p.cleaning v.cleaning,
    governance := apply_section p.governance v.governance,
    database_mapping := apply_section p.database_mapping v.database_mapping }

/-- Prune one section dict: drop every key whose field is not visible for the
effective analytical/data type; also report the removed keys in order. -/
def prune_section (a_t d_t : String) (cur : Option AList) : Option AList × List String :=
  match cur with
  | none => (none, [])
  | some m =>
    (some (m.filter fun kv => is_field_visible kv.1 a_t (some d_t)),
     (m.filter fun kv => !is_field_visible kv.1 a_t (some d_t)).map Prod.fst)

/-- The cascade's prune step on one variable
(src/components/bulk_action_ui.py lines 204-225): the effective types default
to "continuous"/"float64" when absent, and the four sections are pruned in
source order, accumulating the pruning report. -/
def prune_variable (v : Variable) : Variable × List String :=
  let a_t := v.analytical_type.getD "continuous"
  let d_t := v.data_type.getD "float64"
  let pc := prune_section a_t d_t v.constraints
  let pk := prune_section a_t d_t v.cleaning
  let pg := prune_section a_t d_t v.governance
  let pd := prune_section a_t d_t v.database_mapping
  ({ v with constraints := pc.1, cleaning := pk.1, governance := pg.1,
            database_mapping := pd.1 },
   pc.2 ++ pk.2 ++ pg.2 ++ pd.2)

/-- One target of the Coherence Cascade: deep-copy semantics are implicit in
the purely functional embedding; patch root, patch nested sections, then
prune against the recomputed types. -/
def cascade_step (p : Patch) (v : Variable) : Variable × List String :=
  prune_variable (apply_nested p.nested (apply_root p.root v))

/-- The compute phase of the cascade: build `updated_variables`, the
per-target `(idx, clone, pruned keys)` report, reading the ledger without
writing it. -/
def cascade_compute (ledger : List Variable) (targets : List Nat) (p : Patch) :
    List (Nat × Variable × List String) :=
  targets.map fun idx => (idx, cascade_step p (ledger.getD idx Variable.empty))

/-- The commit step behind the confirm button: write each computed clone back
to its ledger slot. -/
def cascade_commit (ledger : List Variable) (targets : List Nat) (p : Patch) :
    List Variable :=
  (cascade_compute ledger targets p).foldl (fun led r => led.set r.1 r.2.1) ledger

/-- Legacy analytical-type vocabulary table `at_map` from
src/components/template_modal.py. -/
def at_map (s : String) : Option String :=
  if s = "categorical" then some "nominal"
  else if s = "boolean" then some "binary"
  else if s = "numeric" then some "continuous"
  else if s = "datetime" then some "time_index"
  else none

/-- Legacy data-type vocabulary table `dt_map` from
src/components/template_modal.py. -/
def dt_map (s : String) : Option String :=
  if s = "boolean" then some "bool"
  else if s = "float" then some "float64"
  else if s = "integer" then some "int64"
  else if s = "string" then some "string"
  else if s = "category" then some "category"
  else none

/-- Legacy role vocabulary table `role_map` from
src/components/template_modal.py. -/
def role_map (s : String) : Option String :=
  if s = "dimension" then some "feature"
  else if s = "measure" then some "target"
  else if s = "identifier" then some "id"
  else none

/-- ASCII lower-casing of one character, as Python `str.lower` acts on the
ASCII range (the sanitizer's whole legacy vocabulary is ASCII). -/
def lowerChar (c : Char) : Char :=
  if 65 ≤ c.toNat ∧ c.toNat ≤ 90 then Char.ofNat (c.toNat + 32) else c

/-- Python `s.lower()` on ASCII strings: lower-case every character. -/
def str_lower (s : String) : String := String.mk (s.data.map lowerChar)

/-- `at_map.get(raw_at, raw_at)` applied to the lower-cased raw value. -/
def sanitize_at (raw : String) : String :=
  (at_map (str_lower raw)).getD (str_lower raw)

/-- `dt_map.get(raw_dt, raw_dt)` applied to the lower-cased raw value. -/
def sanitize_dt (raw : String) : String :=
  (dt_map (str_lower raw)).getD (str_lower raw)

/-- `role_map.get(raw_role, raw_role)` applied to the lower-cased raw value. -/
def sanitize_role (raw : String) : String :=
  (role_map (str_lower raw)).getD (str_lower raw)

/-- Legacy constraint-key rename of src/components/template_modal.py: if
`is_nullable` is present, pop it and write its value under `nullable`. -/
def rename_is_nullable (m : AList) : AList :=
  match dlookup m "is_nullable" with
  | some v => dinsert (dremove m "is_nullable") "nullable" v
  | none => m

/-- A template payload as read by the sanitizer: the three typed fields and
the constraints section. `payload.get(field, "")` semantics make an absent
field behave as the empty string. -/
structure TemplatePayload where
  analytical_type : Option String
  data_type : Option String
  role : Option String
  constraints : Option AList
deriving DecidableEq, Repr

/-- The data-mismatch sanitizer of src/components/template_modal.py
(steps 1-4): sanitize the three vocabulary fields (writing the result back
even when the field was absent) and rename the legacy constraint key. -/
def sanitize_payload (p : TemplatePayload) : TemplatePayload :=
  { analytical_type := some (sanitize_at (p.analytical_type.getD "")),
    data_type := some (sanitize_dt (p.data_type.getD "")),
    role := some (sanitize_role (p.role.getD "")),
    constraints := p.constraints.map rename_is_nullable }

/-- Inputs of `process_form_submission` in
src/components/variable_form/handlers.py, reduced to the fields the handler
reads: the name (empty string models a missing/blank name, both falsy), the
constraints' `allowed_values` list (default empty) and the constraints'
`ordinal_mapping` dict (default empty). -/
structure VInputs where
  name : String
  allowed_values : List String
  ordinal_mapping : List (String × Int)
deriving DecidableEq, Repr

/-- `process_form_submission(v_inputs, current_at, current_dt)` from
src/components/variable_form/handlers.py: validation gates followed by the
commit (replace at `editing_index` when set, else append). Returns the
handler's boolean result together with the resulting ledger. -/
def process_form_submission (v : VInputs) (current_at current_dt : String)
    (ledger : List VInputs) (editing_index : Option Nat) : Bool × List VInputs :=
  if v.name = "" then (false, ledger)
  else if (current_at = "binary" ∨ current_dt = "bool") ∧ v.allowed_values.length ≠ 2 then
    (false, ledger)
  else if current_dt = "category" ∧ current_at = "ordinal" ∧
      (v.ordinal_mapping.map Prod.snd).length ≠ (v.ordinal_mapping.map Prod.snd).dedup.length then
    (false, ledger)
  else
    match editing_index with
    | some i => (true, ledger.set i v)
    | none => (true, ledger ++ [v])

/-- `delete_variable(index)` from src/components/variable_form/handlers.py:
guarded by `0 <= index < len(...)`; inside the guard the entry is removed,
outside it the function returns without touching the list. The boolean
records whether the guard was taken (deletion, success toast and rerun). -/
def delete_variable (vars : List α) (index : Int) : List α × Bool :=
  if 0 ≤ index ∧ index < vars.length then (vars.eraseIdx index.toNat, true)
  else (vars, false)

/-- The Scenario D variable: constraints currently hold
`min_value = 0, max_value = 100, allowed_values = [Y, N]`. -/
def scenarioD_variable : Variable :=
  { name := some "score_flag", analytical_type := some "continuous",
    data_type := some "float64",
    constraints := some [("min_value", Val.int 0), ("max_value", Val.int 100),
      ("allowed_values", Val.strList ["Y", "N"])],
    cleaning := none, governance := none, database_mapping := none }

/-- The Scenario D patch: root sets `analytical_type = binary`, nested empty. -/
def scenarioD_patch : Patch :=
  { root := { analytical_type := some "binary", data_type := none },
    nested := { constraints := [], cleaning := [], governance := [],
                database_mapping := [] } }

/-- C1: on the Scenario D input the cascade prunes `min_value` and `max_value`
as the claim says, but it also prunes `allowed_values`: the binary forbidden
list of `is_field_visible` contains `allowed_values`, so the resulting
constraints dict is empty and the pruning report lists all three keys. This
contradicts the claim (and the builder's own rule that a binary variable must
carry exactly two `allowed_values` labels). -/
theorem scenarioD_cascade_prunes_allowed_values :
    (cascade_step scenarioD_patch scenarioD_variable).2 =
      ["min_value", "max_value", "allowed_values"] ∧
    (cascade_step scenarioD_patch scenarioD_variable).1.constraints = some [] ∧
    is_field_visible "allowed_values" "binary" (some "float64") = false := by
  decide

/-- C2 counterexample: with `at = ordinal` and `dt = string` — both drawn from
the spec's enumerations — `ordinal_mapping` is NOT visible, refuting the claim
that visibility holds if and only if `at = ordinal` with the ordinal outcome
overriding every other suppression rule. -/
theorem ordinal_mapping_dt_counterexample :
    "ordinal" ∈ analyticalTypes ∧ some "string" ∈ dataTypeOpts ∧
    is_field_visible "ordinal_mapping" "ordinal" (some "string") = false := by
  decide

/-- C2 (amended): over the spec's analytical types and data-type arguments,
`ordinal_mapping` is visible exactly when `at = ordinal` AND the data type is
neither `string` nor `bool`; for `at ≠ ordinal` it is invisible
unconditionally, but the per-data-type suppression for `string`/`bool` is not
overridden by the ordinal rule. -/
theorem ordinal_mapping_visibility :
    ∀ a_t ∈ analyticalTypes, ∀ dt ∈ dataTypeOpts,
      (is_field_visible "ordinal_mapping" a_t dt = true ↔
        (a_t = "ordinal" ∧ dt ≠ some "string" ∧ dt ≠ some "bool")) := by
  decide

/-- Witness for C2: the amended theorem applied at `at = ordinal`, `dt = None`
evaluates the predicate to visible. -/
theorem ordinal_mapping_visibility_witness :
    is_field_visible "ordinal_mapping" "ordinal" none = true :=
  (ordinal_mapping_visibility "ordinal" (by decide) none (by decide)).mpr
    ⟨rfl, by decide, by decide⟩

/-- C8: `get_filtered_data_types` is total and never empty; on each of the
eight known analytical types it returns exactly the documented list, and on
every unknown input it returns the `object` fallback rather than failing. -/
theorem get_filtered_data_types_spec :
    (∀ s : String, get_filtered_data_types s ≠ []) ∧
    get_filtered_data_types "continuous" = ["float64"] ∧
    get_filtered_data_types "discrete" = ["int64"] ∧
    get_filtered_data_types "nominal" = ["category", "string", "bool"] ∧
    get_filtered_data_types "ordinal" = ["category"] ∧
    get_filtered_data_types "binary" = ["bool", "int64"] ∧
    get_filtered_data_types "text" = ["string"] ∧
    get_filtered_data_types "time_index" = ["datetime64"] ∧
    get_filtered_data_types "spatial" = ["float64", "string"] ∧
    (∀ s : String, s ∉ analyticalTypes → get_filtered_data_types s = ["object"]) := by
  refine ⟨?_, by decide, by decide, by decide, by decide, by decide, by decide,
    by decide, by decide, ?_⟩
  · intro s
    unfold get_filtered_data_types
    split_ifs <;> simp
  · intro s hs
    simp only [analyticalTypes, List.mem_cons, List.not_mem_nil, or_false] at hs
    push_neg at hs
    obtain ⟨h1, h2, h3, h4, h5, h6, h7, h8⟩ := hs
    unfold get_filtered_data_types
    rw [if_neg h1, if_neg h2, if_neg h3, if_neg h4, if_neg h5, if_neg h6,
      if_neg h7, if_neg h8]

/-- Witness for C8: the unknown-input branch evaluated at a concrete string. -/
theorem get_filtered_data_types_spec_witness :
    get_filtered_data_types "unknown_garbage" = ["object"] :=
  get_filtered_data_types_spec.2.2.2.2.2.2.2.2.2 "unknown_garbage" (by decide)

/-- C9: the first rule of `get_filtered_roles` wins: whenever
`at = time_index` or `dt = datetime64`, the result is exactly `[time_index]`,
regardless of every other attribute. -/
theorem get_filtered_roles_time_index_wins (a_t : String) (dt : Option String)
    (h : a_t = "time_index" ∨ dt = some "datetime64") :
    get_filtered_roles a_t dt = ["time_index"] := by
  unfold get_filtered_roles
  rw [if_pos h]

/-- Witness for C9: the rule applied at a concrete input where only the data
type forces the outcome. -/
theorem get_filtered_roles_time_index_wins_witness :
    get_filtered_roles "nominal" (some "datetime64") = ["time_index"] :=
  get_filtered_roles_time_index_wins "nominal" (some "datetime64") (Or.inr rfl)

/-- C10: the prune step treats a variable with no `analytical_type` key
exactly like one whose analytical type is `continuous`, and a variable with
no `data_type` key exactly like one whose data type is `float64`: the pruning
report and all four pruned sections coincide, so an untyped variable is
evaluated against these defaults rather than skipped or failed. -/
theorem prune_untyped_defaults (v : Variable) :
    ((prune_variable { v with analytical_type := none }).2 =
       (prune_variable { v with analytical_type := some "continuous" }).2 ∧
     (prune_variable { v with analytical_type := none }).1.constraints =
       (prune_variable { v with analytical_type := some "continuous" }).1.constraints ∧
     (prune_variable { v with analytical_type := none }).1.cleaning =
       (prune_variable { v with analytical_type := some "continuous" }).1.cleaning ∧
     (prune_variable { v with analytical_type := none }).1.governance =
       (prune_variable { v with analytical_type := some "continuous" }).1.governance ∧
     (prune_variable { v with analytical_type := none }).1.database_mapping =
       (prune_variable { v with analytical_type := some "continuous" }).1.database_mapping) ∧
    ((prune_variable { v with data_type := none }).2 =
       (prune_variable { v with data_type := some "float64" }).2 ∧
     (prune_variable { v with data_type := none }).1.constraints =
       (prune_variable { v with data_type := some "float64" }).1.constraints ∧
     (prune_variable { v with data_type := none }).1.cleaning =
       (prune_variable { v with data_type := some "float64" }).1.cleaning ∧
     (prune_variable { v with data_type := none }).1.governance =
       (prune_variable { v with data_type := some "float64" }).1.governance ∧
     (prune_variable { v with data_type := none }).1.database_mapping =
       (prune_variable { v with data_type := some "float64" }).1.database_mapping) :=
  ⟨⟨rfl, rfl, rfl, rfl, rfl⟩, ⟨rfl, rfl, rfl, rfl, rfl⟩⟩

/-- With the empty patch, a cascade step is exactly the prune step. -/
theorem cascade_step_empty (v : Variable) :
    cascade_step Patch.empty v = prune_variable v := by
  simp [cascade_step, Patch.empty, apply_root, apply_nested, apply_section]

/-- Pruning a section twice with the same types changes nothing further. -/
theorem prune_section_idem (a_t d_t : String) (cur : Option AList) :
    (prune_section a_t d_t (prune_section a_t d_t cur).1).1 =
      (prune_section a_t d_t cur).1 := by
  cases cur with
  | none => rfl
  | some m =>
    simp only [prune_section, List.filter_filter, Option.some.injEq]
    congr 1
    funext kv
    exact Bool.and_self _

/-- C3: the cascade's prune step is idempotent — running a cascade step twice
with the empty patch yields the same variable as running it once. -/
theorem prune_step_idempotent (v : Variable) :
    (cascade_step Patch.empty (cascade_step Patch.empty v).1).1 =
      (cascade_step Patch.empty v).1 := by
  rw [cascade_step_empty, cascade_step_empty]
  show (prune_variable (prune_variable v).1).1 = (prune_variable v).1
  cases v with
  | mk n a_t d_t c k g d =>
    simp only [prune_variable, Option.getD]
    simp only [prune_section_idem]

/-- Positions before the erased index are untouched by `eraseIdx`. -/
theorem eraseIdx_get?_lt (l : List α) (n j : Nat) (h : j < n) :
    (l.eraseIdx n).get? j = l.get? j := by
  induction l generalizing n j with
  | nil => rfl
  | cons a t ih =>
    cases n with
    | zero => omega
    | succ n =>
      cases j with
      | zero => rfl
      | succ j => exact ih n j (by omega)

/-- Positions at or after an in-range erased index shift down by one. -/
theorem eraseIdx_get?_ge (l : List α) (n j : Nat) (hn : n < l.length) (h : n ≤ j) :
    (l.eraseIdx n).get? j = l.get? (j + 1) := by
  induction l generalizing n j with
  | nil => simp at hn
  | cons a t ih =>
    cases n with
    | zero => rfl
    | succ n =>
      cases j with
      | zero => omega
      | succ j =>
        exact ih n j (by simpa using hn) (by omega)

/-- C4 counterexample: deleting at the out-of-bounds index 5 of a one-entry
ledger returns normally with the ledger unchanged and the guard not taken —
there is no failure, refuting the claim that an out-of-bounds removal fails
with `IndexError`. -/
theorem delete_out_of_bounds_noop :
    delete_variable [Variable.empty] 5 = ([Variable.empty], false) := by
  decide

/-- C4 (amended): `delete_variable` is guarded — at an out-of-bounds index it
is a silent no-op (the list is returned unchanged and no deletion is
signalled); at an in-bounds index the entry is removed, the length drops by
one, earlier positions are untouched, and subsequent entries shift down by
one position with their relative order preserved. -/
theorem delete_variable_spec (vars : List α) (index : Int) :
    (¬(0 ≤ index ∧ index < vars.length) →
      delete_variable vars index = (vars, false)) ∧
    ((0 ≤ index ∧ index < vars.length) →
      (delete_variable vars index).2 = true ∧
      (delete_variable vars index).1.length = vars.length - 1 ∧
      (∀ j : Nat, j < index.toNat →
        (delete_variable vars index).1.get? j = vars.get? j) ∧
      (∀ j : Nat, index.toNat ≤ j →
        (delete_variable vars index).1.get? j = vars.get? (j + 1))) := by
  constructor
  · intro h
    unfold delete_variable
    rw [if_neg h]
  · intro h
    have hlt : index.toNat < vars.length := by omega
    unfold delete_variable
    rw [if_pos h]
    refine ⟨rfl, ?_, ?_, ?_⟩
    · simpa using List.length_eraseIdx_of_lt hlt
    · intro j hj
      exact eraseIdx_get?_lt vars index.toNat j hj
    · intro j hj
      exact eraseIdx_get?_ge vars index.toNat j hlt hj

/-- Witness for C4: both branches of the amended theorem evaluated on a
concrete three-entry ledger. -/
theorem delete_variable_spec_witness :
    delete_variable ([10, 20, 30] : List Nat) 5 = ([10, 20, 30], false) ∧
    (delete_variable ([10, 20, 30] : List Nat) 1).1.get? 1 = ([10, 20, 30] : List Nat).get? 2 :=
  ⟨(delete_variable_spec ([10, 20, 30] : List Nat) 5).1 (by decide),
   (delete_variable_spec ([10, 20, 30] : List Nat) 1).2 (by decide) |>.2.2.2 1 (by decide)⟩

/-- C5: with a non-empty name and a binary lock (`analytical_type = binary`
or `data_type = bool`), the record builder's commit validation succeeds
exactly when `allowed_values` has exactly 2 entries, and on failure the
ledger is left unchanged (nothing is committed). -/
theorem binary_lock (v : VInputs) (current_at current_dt : String)
    (ledger : List VInputs) (eidx : Option Nat)
    (hbin : current_at = "binary" ∨ current_dt = "bool") (hname : v.name ≠ "") :
    ((process_form_submission v current_at current_dt ledger eidx).1 = true ↔
      v.allowed_values.length = 2) ∧
    ((process_form_submission v current_at current_dt ledger eidx).1 = false →
      (process_form_submission v current_at current_dt ledger eidx).2 = ledger) := by
  have hord : ¬(current_dt = "category" ∧ current_at = "ordinal" ∧
      (v.ordinal_mapping.map Prod.snd).length ≠
        (v.ordinal_mapping.map Prod.snd).dedup.length) := by
    rcases hbin with h | h <;> subst h
    · rintro ⟨-, h2, -⟩
      exact absurd h2 (by decide)
    · rintro ⟨h1, -, -⟩
      exact absurd h1 (by decide)
  unfold process_form_submission
  rw [if_neg hname]
  by_cases hlen : v.allowed_values.length = 2
  · have hgate : ¬((current_at = "binary" ∨ current_dt = "bool") ∧
        v.allowed_values.length ≠ 2) := fun hc => hc.2 hlen
    rw [if_neg hgate, if_neg hord]
    cases eidx <;> simp [hlen]
  · rw [if_pos ⟨hbin, hlen⟩]
    simp [hlen]

/-- Witness for C5: a binary variable with two labels commits successfully. -/
theorem binary_lock_witness :
    (process_form_submission ⟨"flag", ["Y", "N"], []⟩ "binary" "bool" [] none).1 = true :=
  (binary_lock ⟨"flag", ["Y", "N"], []⟩ "binary" "bool" [] none
    (Or.inl rfl) (by decide)).1.mpr (by decide)

/-- A key absent from an association list looks up to nothing. -/
theorem dlookup_not_mem (m : AList) (k : String) (h : k ∉ m.map Prod.fst) :
    dlookup m k = none := by
  induction m with
  | nil => rfl
  | cons kv t ih =>
    simp only [List.map_cons, List.mem_cons] at h
    push_neg at h
    unfold dlookup
    rw [if_neg (fun hc => h.1 hc.symm)]
    exact ih h.2

/-- Overwrite-or-append does not disturb lookups of other keys. -/
theorem dlookup_dinsert_ne (m : AList) (k k' : String) (v : Val) (h : k ≠ k') :
    dlookup (dinsert m k v) k' = dlookup m k' := by
  induction m with
  | nil =>
    unfold dinsert dlookup
    rw [if_neg h]
    rfl
  | cons kv t ih =>
    unfold dinsert
    by_cases hk : kv.1 = k
    · rw [if_pos hk]
      unfold dlookup
      have hne : ¬(kv.1 = k') := fun hc => h (hk.symm.trans hc)
      rw [if_neg hne, if_neg hne]
    · rw [if_neg hk]
      unfold dlookup
      by_cases hk' : kv.1 = k'
      · rw [if_pos hk', if_pos hk']
      · rw [if_neg hk', if_neg hk']
        exact ih

/-- Overwrite-or-append makes the written key look up to the new value. -/
theorem dlookup_dinsert_self (m : AList) (k : String) (v : Val) :
    dlookup (dinsert m k v) k = some v := by
  induction m with
  | nil =>
    unfold dinsert dlookup
    rw [if_pos rfl]
  | cons kv t ih =>
    unfold dinsert
    by_cases hk : kv.1 = k
    · rw [if_pos hk]
      unfold dlookup
      rw [if_pos hk]
    · rw [if_neg hk]
      unfold dlookup
      rw [if_neg hk]
      exact ih

/-- Under unique keys, popping a key makes it look up to nothing. -/
theorem dlookup_dremove_self (m : AList) (k : String)
    (h : (m.map Prod.fst).Nodup) : dlookup (dremove m k) k = none := by
  induction m with
  | nil => rfl
  | cons kv t ih =>
    simp only [List.map_cons, List.nodup_cons] at h
    unfold dremove
    by_cases hk : kv.1 = k
    · rw [if_pos hk]
      refine dlookup_not_mem t k ?_
      rw [← hk]
      exact h.1
    · rw [if_neg hk]
      unfold dlookup
      rw [if_neg hk]
      exact ih h.2

/-- C6: template vocabulary sanitization matches the documented tables and is
total. On the Scenario E payload it maps `categorical` to `nominal`,
`boolean` to `bool` and renames `is_nullable` to `nullable`; in general the
rename removes the original key and carries its value, and every string whose
lower-cased form misses the lookup tables passes through lower-cased. -/
theorem sanitize_spec :
    sanitize_payload
      { analytical_type := some "categorical", data_type := some "boolean",
        role := none, constraints := some [("is_nullable", Val.bool true)] } =
      { analytical_type := some "nominal", data_type := some "bool",
        role := some "", constraints := some [("nullable", Val.bool true)] } ∧
    (∀ m : AList, (m.map Prod.fst).Nodup →
      dlookup (rename_is_nullable m) "is_nullable" = none ∧
      (∀ v : Val, dlookup m "is_nullable" = some v →
        dlookup (rename_is_nullable m) "nullable" = some v)) ∧
    (∀ s : String, s ≠ "" → at_map (str_lower s) = none → sanitize_at s = str_lower s) ∧
    (∀ s : String, s ≠ "" → dt_map (str_lower s) = none → sanitize_dt s = str_lower s) ∧
    (∀ s : String, s ≠ "" → role_map (str_lower s) = none → sanitize_role s = str_lower s) := by
  refine ⟨by decide, ?_, ?_, ?_, ?_⟩
  · intro m hm
    constructor
    · cases hl : dlookup m "is_nullable" with
      | none =>
        unfold rename_is_nullable
        rw [hl]
        exact hl
      | some v₀ =>
        unfold rename_is_nullable
        rw [hl]
        rw [dlookup_dinsert_ne _ _ _ _ (by decide)]
        exact dlookup_dremove_self m "is_nullable" hm
    · intro v hv
      unfold rename_is_nullable
      rw [hv]
      exact dlookup_dinsert_self _ _ _
  · intro s _ hmap
    unfold sanitize_at
    rw [hmap]
    rfl
  · intro s _ hmap
    unfold sanitize_dt
    rw [hmap]
    rfl
  · intro s _ hmap
    unfold sanitize_role
    rw [hmap]
    rfl

/-- Witness for C6: the general rename clause evaluated on a concrete
constraints dict, and a pass-through string evaluated lower-cased. -/
theorem sanitize_spec_witness :
    dlookup (rename_is_nullable [("is_nullable", Val.bool true)]) "nullable" =
      some (Val.bool true) ∧
    sanitize_at "Custom_Kind" = "custom_kind" :=
  ⟨(sanitize_spec.2.1 [("is_nullable", Val.bool true)] (by decide)).2
     (Val.bool true) (by decide),
   (sanitize_spec.2.2.1 "Custom_Kind" (by decide) (by decide)).trans (by decide)⟩

/-- The compute phase as the caller sees it: the pruning report paired with
the ledger state it leaves behind. The phase only reads the ledger
(every target is deep-copied before being patched), so the resulting ledger
state is the input ledger. Aborting after the preview keeps exactly this
state. -/
def cascade_preview (ledger : List Variable) (targets : List Nat) (p : Patch) :
    List (Nat × Variable × List String) × List Variable :=
  (cascade_compute ledger targets p, ledger)

/-- Folding write-backs whose indices all avoid `i` cannot change slot `i`. -/
theorem foldl_set_frame (l : List (Nat × Variable × List String))
    (led : List Variable) (i : Nat) (h : ∀ r ∈ l, r.1 ≠ i) :
    (l.foldl (fun led r => led.set r.1 r.2.1) led).get? i = led.get? i := by
  induction l generalizing led with
  | nil => rfl
  | cons r t ih =>
    simp only [List.foldl_cons]
    rw [ih (led.set r.1 r.2.1) (fun s hs => h s (List.mem_cons_of_mem _ hs))]
    simp only [List.get?_eq_getElem?]
    exact List.getElem?_set_ne (h r (List.mem_cons_self _ _))

/-- C7: the cascade's compute phase leaves the ledger untouched (aborting
before commit keeps the ledger exactly as it was), and the commit step
changes only the targeted slots: every index outside the target set holds the
same entry after commit as before. -/
theorem cascade_frame (ledger : List Variable) (targets : List Nat) (p : Patch)
    (i : Nat) (hi : i ∉ targets) :
    (cascade_preview ledger targets p).2 = ledger ∧
    (cascade_commit ledger targets p).get? i = ledger.get? i := by
  refine ⟨rfl, ?_⟩
  unfold cascade_commit
  refine foldl_set_frame _ _ _ ?_
  intro r hr
  unfold cascade_compute at hr
  obtain ⟨idx, hidx, rfl⟩ := List.mem_map.mp hr
  exact fun he => hi (he ▸ hidx)

/-- Witness for C7: committing a cascade that targets slot 0 of a two-entry
ledger leaves slot 1 unchanged. -/
theorem cascade_frame_witness :
    (cascade_commit [Variable.empty, scenarioD_variable] [0] scenarioD_patch).get? 1 =
      some scenarioD_variable :=
  ((cascade_frame [Variable.empty, scenarioD_variable] [0] scenarioD_patch 1
    (by decide)).2).trans (by decide)

end DictionaryForge
